import Mathlib

/-!
Verification of the ocean_ai_poc ingestion and query pipelines.

The Python sources `src/ingest.py` and `src/rag_retriever.py` are shallowly
embedded below.  External capabilities (file system, OpenAI embeddings and
chat, the PostgreSQL store, the langchain text splitter, tiktoken) are
modelled as explicit parameters or as explicit state:

* the relational store is a `Store` value (lists of `Document` and `Chunk`
  rows plus the two id sequences);
* the embedding provider is a function argument `embedder` (one call per
  batch, mirroring `create_embeddings`); a failed call returns `[]`, exactly
  as the Python `create_embeddings` does after catching an exception;
* the text splitter and the token counter are function arguments;
* the pgvector distance operator `<=>` is a function argument `dist`; the
  SQL `ORDER BY similarity_score DESC LIMIT n` is modelled by `mergeSort`
  with a non-increasing-score comparator followed by `take`.

Floating point scores are modelled by `ℚ`; only ordering properties of
scores are used.  Python string operations are modelled on `List Char`
(`s.lower()` as ASCII lowering, `term in s` as contiguous-sublist search),
which agrees with Python on the ASCII rule keywords involved.
-/

namespace OceanAI

/-- ASCII lowering of one character; agrees with Python `str.lower` on ASCII. -/
def lowerChar (c : Char) : Char :=
  if 'A' ≤ c ∧ c ≤ 'Z' then Char.ofNat (c.toNat + 32) else c

/-- Model of Python `filename.lower()` (ASCII part). -/
def lowerStr (s : String) : String :=
  ⟨s.data.map lowerChar⟩

/-- Here `startsWith needle hay` holds when `needle` is an initial segment of `hay`. -/
def startsWith : List Char → List Char → Bool
  | [], _ => true
  | _ :: _, [] => false
  | a :: as, b :: bs => a == b && startsWith as bs

/-- Here `strContains hay needle` holds when `needle` occurs contiguously inside `hay`,
the semantics of Python's `needle in hay` on strings. -/
def strContains : List Char → List Char → Bool
  | [], needle => startsWith needle []
  | h :: t, needle => startsWith needle (h :: t) || strContains t needle

/-- Python `term in s` for strings. -/
def containsTerm (s term : String) : Bool :=
  strContains s.data term.data

/-- The metadata dictionary produced by
`DocumentIngestor.extract_metadata_from_filename`: key `doc_type` is always
present, `geographic_focus` only when some geographic rule matched, and
`topics` is always present (possibly empty). -/
structure Metadata where
  doc_type : String
  geographic_focus : Option String
  topics : List String
deriving DecidableEq, Repr

/-- The `geographic_terms` dict of `ingest.py`, in declaration order. -/
def geographic_terms : List (String × String) :=
  [("baltic", "Baltic Sea"),
   ("north sea", "North Sea"),
   ("mediterranean", "Mediterranean Sea"),
   ("atlantic", "Atlantic Ocean"),
   ("pacific", "Pacific Ocean"),
   ("arctic", "Arctic Ocean")]

/-- The `ocean_topics` dict of `ingest.py`, in declaration order. -/
def ocean_topics : List (String × String) :=
  [("seagrass", "seagrass_restoration"),
   ("coral", "coral_conservation"),
   ("biodiversity", "marine_biodiversity"),
   ("carbon", "blue_carbon"),
   ("plastic", "marine_pollution"),
   ("fishing", "sustainable_fisheries"),
   ("renewable", "offshore_renewable_energy")]

/-- First-match lookup over an ordered (keyword, value) table: the
`for term, region in geographic_terms.items(): ... break` loop of
`extract_metadata_from_filename`. -/
def firstMatchKV : List (String × String) → String → Option String
  | [], _ => none
  | (term, value) :: rest, fl =>
      if containsTerm fl term then some value else firstMatchKV rest fl

/-- Model of `DocumentIngestor.extract_metadata_from_filename`, translated clause by
clause: nested doc-type conditionals, first-match geographic loop, and the
collect-all topics loop. -/
def extract_metadata_from_filename (filename : String) : Metadata :=
  let fl := lowerStr filename
  let doc_type :=
    if ["sustainability", "esg", "csr"].any (fun t => containsTerm fl t) then
      "sustainability_report"
    else if ["annual", "quarterly", "financial"].any (fun t => containsTerm fl t) then
      "company_report"
    else if containsTerm fl "esrs" || containsTerm fl "european sustainability reporting" then
      "esrs_document"
    else
      "unknown"
  { doc_type := doc_type
    geographic_focus := firstMatchKV geographic_terms fl
    topics := (ocean_topics.filter (fun p => containsTerm fl p.1)).map Prod.snd }

/-- Generic first-match over rules each carrying several keywords; used to
state the spec's "ordered rule table, first match wins" reading of the
doc-type conditionals. -/
def firstRuleMatch : List (List String × String) → String → Option String
  | [], _ => none
  | (kws, value) :: rest, fl =>
      if kws.any (fun t => containsTerm fl t) then some value else firstRuleMatch rest fl

/-- The doc-type conditionals of `extract_metadata_from_filename` read as an
ordered rule table. -/
def docTypeRules : List (List String × String) :=
  [(["sustainability", "esg", "csr"], "sustainability_report"),
   (["annual", "quarterly", "financial"], "company_report"),
   (["esrs", "european sustainability reporting"], "esrs_document")]

/-- A row of the `documents` table. -/
structure Document where
  id : Nat
  filename : String
  doc_type : String
  organization : Option String
  file_size : Nat
  metadata : Metadata
deriving DecidableEq, Repr

/-- The per-chunk metadata dict built in `ingest_document`: a copy of the
document metadata plus `chunk_index` and `source_file`. -/
structure ChunkMeta where
  base : Metadata
  chunk_index : Nat
  source_file : String
deriving DecidableEq, Repr

/-- A row of the `chunks` table. -/
structure Chunk where
  id : Nat
  doc_id : Nat
  chunk_index : Nat
  content : String
  embedding : List ℚ
  token_count : Nat
  metadata : ChunkMeta
deriving DecidableEq, Repr

/-- The relational store: the two tables plus their id sequences. -/
structure Store where
  documents : List Document
  chunks : List Chunk
  next_doc_id : Nat
  next_chunk_id : Nat
deriving DecidableEq, Repr

/-- Model of `DocumentIngestor.document_exists`: `SELECT id FROM documents WHERE
filename = %s AND file_size = %s`, result non-empty. -/
def document_exists (st : Store) (filename : String) (file_size : Nat) : Bool :=
  st.documents.any (fun d => d.filename == filename && d.file_size == file_size)

/-- Number of `documents` rows matching a given (filename, file_size) pair. -/
def docCount (st : Store) (filename : String) (file_size : Nat) : Nat :=
  (st.documents.filter (fun d => d.filename == filename && d.file_size == file_size)).length

/-- Model of `DocumentIngestor.store_document`: insert one `documents` row, returning
the new store and the assigned id (`RETURNING id`). -/
def store_document (st : Store) (filename : String) (doc_type : String)
    (organization : Option String) (file_size : Nat) (metadata : Metadata) :
    Store × Nat :=
  ({ st with
      documents := st.documents ++
        [{ id := st.next_doc_id, filename := filename, doc_type := doc_type,
           organization := organization, file_size := file_size, metadata := metadata }],
      next_doc_id := st.next_doc_id + 1 },
   st.next_doc_id)

/-- The rows inserted by the `for i, (chunk, embedding, metadata) in
enumerate(zip(...))` loop of `DocumentIngestor.store_chunks`, with running
index `i` and sequential ids. -/
def chunkRows (ctok : String → Nat) (next_id doc_id : Nat) :
    Nat → List (String × (List ℚ × ChunkMeta)) → List Chunk
  | _, [] => []
  | i, (c, (e, m)) :: rest =>
      { id := next_id + i, doc_id := doc_id, chunk_index := i, content := c,
        embedding := e, token_count := ctok c, metadata := m }
        :: chunkRows ctok next_id doc_id (i + 1) rest

/-- Model of `DocumentIngestor.store_chunks`: insert one `chunks` row per element of
`zip(chunks, embeddings, chunk_metadata)` (`zip` truncates to the shortest
input), with `chunk_index = i` in loop order.  `ctok` models the tiktoken
token counter. -/
def store_chunks (ctok : String → Nat) (st : Store) (doc_id : Nat)
    (chunks : List String) (embeddings : List (List ℚ))
    (chunk_metadata : List ChunkMeta) : Store :=
  let rows := chunkRows ctok st.next_chunk_id doc_id 0
    (chunks.zip (embeddings.zip chunk_metadata))
  { st with
      chunks := st.chunks ++ rows,
      next_chunk_id := st.next_chunk_id + rows.length }

/-- The `enumerate(chunks)` loop of `ingest_document` building the per-chunk
metadata list. -/
def chunkMetas (md : Metadata) (filename : String) : Nat → List String → List ChunkMeta
  | _, [] => []
  | i, _ :: rest => { base := md, chunk_index := i, source_file := filename }
      :: chunkMetas md filename (i + 1) rest

/-- The `for i in range(0, len(chunks), batch_size)` loop of
`ingest_document`: call the embedding provider once per batch of 100 and
concatenate whatever each call returns (a failed call returns `[]`). -/
def batchedEmbeddings (embedder : List String → List (List ℚ)) :
    List String → List (List ℚ)
  | [] => []
  | c :: cs =>
      embedder ((c :: cs).take 100) ++ batchedEmbeddings embedder ((c :: cs).drop 100)
termination_by l => l.length
decreasing_by simp; omega

/-- Python whitespace test: `not text.strip()` holds exactly when every
character of `text` is whitespace (ASCII whitespace suffices here). -/
def allWhitespace (s : String) : Bool :=
  s.data.all (fun c => c == ' ' || c == '\t' || c == '\n' || c == '\r' ||
    c == '\x0b' || c == '\x0c')

/-- A file as seen by `ingest_document` after the external file system and
text-extraction steps: its name, its size in bytes, and the extracted text
(empty when extraction failed, exactly as `extract_text_from_pdf` returns
`""` after an exception). -/
structure FileInput where
  filename : String
  file_size : Nat
  text : String
deriving DecidableEq, Repr

/-- Model of `DocumentIngestor.ingest_document` on an existing file, step by step:
idempotent-skip pre-check (returns success), empty-extracted-text check
(returns failure), metadata derivation, document insert, splitting (the
langchain splitter is the argument `splitter`), per-chunk metadata, batched
embeddings, the count-mismatch check (returns failure, document row already
inserted), and finally the chunk insert (returns success). -/
def ingest_document (ctok : String → Nat) (splitter : String → List String)
    (embedder : List String → List (List ℚ)) (st : Store) (f : FileInput)
    (organization : Option String) : Store × Bool :=
  if document_exists st f.filename f.file_size then (st, true)
  else if allWhitespace f.text then (st, false)
  else
    let metadata := extract_metadata_from_filename f.filename
    let sd := store_document st f.filename metadata.doc_type organization f.file_size metadata
    let st1 := sd.1
    let doc_id := sd.2
    let chunks := splitter f.text
    let chunk_metadata := chunkMetas metadata f.filename 0 chunks
    let all_embeddings := batchedEmbeddings embedder chunks
    if all_embeddings.length ≠ chunks.length then (st1, false)
    else (store_chunks ctok st1 doc_id chunks all_embeddings chunk_metadata, true)

/-- The merged metadata dict built per row in `search_similar_chunks`:
`metadata.update(chunk_metadata); metadata.update(doc_metadata)`, so for the
shared keys (`doc_type`, `geographic_focus`, `topics`) the document value
wins when present, and `chunk_index` / `source_file` come from the chunk. -/
structure MergedMeta where
  doc_type : String
  geographic_focus : Option String
  topics : List String
  chunk_index : Nat
  source_file : String
deriving DecidableEq, Repr

def mergeMeta (cm : ChunkMeta) (dm : Metadata) : MergedMeta :=
  { doc_type := dm.doc_type
    geographic_focus :=
      match dm.geographic_focus with
      | some g => some g
      | none => cm.base.geographic_focus
    topics := dm.topics
    chunk_index := cm.chunk_index
    source_file := cm.source_file }

/-- The `SearchResult` dataclass of `rag_retriever.py` (scores as `ℚ`). -/
structure SearchResult where
  content : String
  doc_id : Nat
  chunk_id : Nat
  filename : String
  organization : Option String
  doc_type : String
  similarity_score : ℚ
  metadata : MergedMeta
deriving DecidableEq, Repr

/-- One row of the `chunks JOIN documents` result, already scored. -/
def rowToResult (dist : List ℚ → List ℚ → ℚ) (query_embedding : List ℚ)
    (c : Chunk) (d : Document) : SearchResult :=
  { content := c.content
    doc_id := c.doc_id
    chunk_id := c.id
    filename := d.filename
    organization := d.organization
    doc_type := d.doc_type
    similarity_score := 1 - dist c.embedding query_embedding
    metadata := mergeMeta c.metadata d.metadata }

/-- Model of `OceanRAGRetriever.search_similar_chunks`.  The SQL is translated
verbatim: `FROM chunks c JOIN documents d ON c.doc_id = d.id`, score
`1 - (c.embedding <=> query)` where `<=>` is the argument `dist`,
`ORDER BY similarity_score DESC` (a deterministic sort by non-increasing
score) and `LIMIT lim`.  The query has no `WHERE` clause: the
`similarity_threshold`, `doc_type_filter`, `geographic_filter` and
`topic_filter` parameters are accepted, bound, and never used, exactly as in
the source. -/
def search_similar_chunks (dist : List ℚ → List ℚ → ℚ) (st : Store)
    (query_embedding : List ℚ) (lim : Nat) (similarity_threshold : ℚ)
    (doc_type_filter geographic_filter topic_filter : Option String) :
    List SearchResult :=
  let rows := st.chunks.flatMap (fun c =>
    (st.documents.filter (fun d => d.id == c.doc_id)).map (fun d =>
      rowToResult dist query_embedding c d))
  (rows.mergeSort (fun a b => decide (b.similarity_score ≤ a.similarity_score))).take lim

/-- Python string interpolation of an optional value: `None` prints as
`"None"`. -/
def pyStr (o : Option String) : String :=
  match o with
  | some s => s
  | none => "None"

/-- One formatted context block of `prepare_context`:
`f"[Source: {filename} - {organization}]\n{content}\n"`. -/
def formatBlock (r : SearchResult) : String :=
  "[Source: " ++ r.filename ++ " - " ++ pyStr r.organization ++ "]\n" ++ r.content ++ "\n"

/-- The approximate token cost of a block: `len(block) // 4`. -/
def blockCost (r : SearchResult) : Nat :=
  (formatBlock r).length / 4

/-- The accumulation loop of `prepare_context`: keep appending formatted
blocks while the running estimated-token total stays within budget; `break`
at the first block that would exceed it. -/
def prepareContextLoop : List SearchResult → Nat → Nat → List String
  | [], _, _ => []
  | r :: rs, total, max_tokens =>
      if total + blockCost r > max_tokens then []
      else formatBlock r :: prepareContextLoop rs (total + blockCost r) max_tokens

/-- Model of `OceanRAGRetriever.prepare_context`: sentinel on empty input, otherwise
the accumulated blocks joined by `"\n---\n"`. -/
def prepare_context (search_results : List SearchResult) (max_tokens : Nat) : String :=
  if search_results.isEmpty then "No relevant information found."
  else String.intercalate "\n---\n" (prepareContextLoop search_results 0 max_tokens)

/-- Greedy block count: how many leading blocks the loop accepts given the
running total.  Used to state that the loop output is a prefix. -/
def fitCount : List Nat → Nat → Nat → Nat
  | [], _, _ => 0
  | c :: cs, total, budget =>
      if total + c > budget then 0 else 1 + fitCount cs (total + c) budget

/-- Model of `round(x, 3)` on scores; Python rounds half to even, which can differ
from `round` only when `1000 * x` is exactly a half-integer — no theorem
below depends on the rounded value. -/
def round3 (q : ℚ) : ℚ :=
  (round (q * 1000) : ℚ) / 1000

/-- One entry of the `sources` list assembled by `OceanRAGRetriever.query`. -/
structure SourceInfo where
  filename : String
  organization : Option String
  doc_type : String
  similarity_score : ℚ
  geographic_focus : Option String
  topics : List String
deriving DecidableEq, Repr

def mkSource (r : SearchResult) : SourceInfo :=
  { filename := r.filename
    organization := r.organization
    doc_type := r.doc_type
    similarity_score := round3 r.similarity_score
    geographic_focus := r.metadata.geographic_focus
    topics := r.metadata.topics }

/-- The `metadata` entry of a successful query response. -/
structure QueryMeta where
  question : String
  results_count : Nat
  doc_type_filter : Option String
  geographic_filter : Option String
  topic_filter : Option String
deriving DecidableEq, Repr

/-- The dictionary returned by `OceanRAGRetriever.query`; the error path
returns `metadata = {}`, modelled as `none`. -/
structure QueryResponse where
  answer : String
  sources : List SourceInfo
  context : String
  metadata : Option QueryMeta
deriving DecidableEq, Repr

/-- Model of `OceanRAGRetriever.query`.  The embedding of the question is the
argument `embedding` (the value returned by `create_query_embedding`, which
returns `[]` after a provider failure); `gen` models the chat-completion
call of `generate_response`, abstracted to the answer text it produces from
(question, context). -/
def query (gen : String → String → String) (dist : List ℚ → List ℚ → ℚ)
    (st : Store) (embedding : List ℚ) (question : String) (max_results : Nat)
    (similarity_threshold : ℚ)
    (doc_type_filter geographic_filter topic_filter : Option String) :
    QueryResponse :=
  if embedding.isEmpty then
    { answer := "Error creating query embedding", sources := [], context := "",
      metadata := none }
  else
    let search_results := search_similar_chunks dist st embedding max_results
      similarity_threshold doc_type_filter geographic_filter topic_filter
    let context := prepare_context search_results 3000
    let answer := gen question context
    { answer := answer
      sources := search_results.map mkSource
      context := context
      metadata := some
        { question := question
          results_count := search_results.length
          doc_type_filter := doc_type_filter
          geographic_filter := geographic_filter
          topic_filter := topic_filter } }

/-- An exception escaping a pipeline stage.  `connectivity` models the
`psycopg2` error raised by `get_db_connection()` when the store is
unreachable. -/
inductive PyErr where
  | connectivity : PyErr
deriving DecidableEq, Repr

/-- Exception-aware model of `search_similar_chunks`.  In the source the
connection is acquired before the `try` block, so a connectivity failure is
not caught and propagates to the caller; only a failure of query execution
or fetching, inside the `try`, is caught by the `except` branch, which
returns `[]`.  The argument `connection` is the outcome of
`get_db_connection()` (the reachable store, or the raised error) and
`execFails` says whether `cursor.execute`/`fetchall` fails. -/
def search_similar_chunksE (connection : Except PyErr Store) (execFails : Bool)
    (dist : List ℚ → List ℚ → ℚ) (query_embedding : List ℚ) (lim : Nat)
    (similarity_threshold : ℚ)
    (doc_type_filter geographic_filter topic_filter : Option String) :
    Except PyErr (List SearchResult) :=
  match connection with
  | .error e => .error e
  | .ok st =>
      if execFails then .ok []
      else .ok (search_similar_chunks dist st query_embedding lim
        similarity_threshold doc_type_filter geographic_filter topic_filter)

/-- Exception-aware model of `OceanRAGRetriever.query`.
`create_query_embedding` catches its own exceptions and returns `[]`, and
the empty-embedding check short-circuits before the store is touched; but
`query` itself has no `try`/`except`, so an exception raised inside the
similarity search propagates uncaught to the caller of `query`. -/
def queryE (gen : String → String → String) (dist : List ℚ → List ℚ → ℚ)
    (connection : Except PyErr Store) (execFails : Bool) (embedding : List ℚ)
    (question : String) (max_results : Nat) (similarity_threshold : ℚ)
    (doc_type_filter geographic_filter topic_filter : Option String) :
    Except PyErr QueryResponse :=
  if embedding.isEmpty then
    .ok { answer := "Error creating query embedding", sources := [], context := "",
          metadata := none }
  else
    match search_similar_chunksE connection execFails dist embedding max_results
        similarity_threshold doc_type_filter geographic_filter topic_filter with
    | .error e => .error e
    | .ok search_results =>
        .ok { answer := gen question (prepare_context search_results 3000)
              sources := search_results.map mkSource
              context := prepare_context search_results 3000
              metadata := some
                { question := question
                  results_count := search_results.length
                  doc_type_filter := doc_type_filter
                  geographic_filter := geographic_filter
                  topic_filter := topic_filter } }

/-! Concrete fixtures used by witnesses and counterexamples. -/

def demoMeta : Metadata :=
  { doc_type := "unknown", geographic_focus := none, topics := [] }

def demoDoc : Document :=
  { id := 0, filename := "a.txt", doc_type := "unknown", organization := none,
    file_size := 5, metadata := demoMeta }

def demoChunkMeta : ChunkMeta :=
  { base := demoMeta, chunk_index := 0, source_file := "a.txt" }

def demoChunk : Chunk :=
  { id := 0, doc_id := 0, chunk_index := 0, content := "hello",
    embedding := [1], token_count := 1, metadata := demoChunkMeta }

/-- A store holding one document (`a.txt`, 5 bytes) with one chunk. -/
def demoStore : Store :=
  { documents := [demoDoc], chunks := [demoChunk], next_doc_id := 1, next_chunk_id := 1 }

/-- An empty store. -/
def emptyStore : Store :=
  { documents := [], chunks := [], next_doc_id := 0, next_chunk_id := 0 }

/-- A constant distance operator: every chunk is at distance 1/2,
so every similarity score is 1/2. -/
def demoDist : List ℚ → List ℚ → ℚ := fun _ _ => 1 / 2

/-- The single row `search_similar_chunks demoDist demoStore [1] ...` ranks. -/
def demoResult : SearchResult := rowToResult demoDist [1] demoChunk demoDoc

def ctokW : String → Nat := fun s => s.length

def splitterW : String → List String := fun t => [t]

/-- A well-behaved embedding provider: one unit vector per input. -/
def embedderW : List String → List (List ℚ) := fun ts => ts.map (fun _ => [1])

/-- A failing embedding provider: returns `[]` for every batch, as
`create_embeddings` does after catching a provider exception. -/
def embedderBad : List String → List (List ℚ) := fun _ => []

def fileW : FileInput := { filename := "a.txt", file_size := 5, text := "hello" }

/-! Theorems. -/

/-- C6: metadata extraction is a pure function of the filename and the rule
tables, evaluated case-insensitively over substrings: for `doc_type` and
`geographic_focus` the first matching rule in declared order wins (with the
stated defaults), `topics` collects the tags of all matching topic rules in
declaration order without duplicates, and `baltic_seagrass_report.pdf`
yields doc_type `"unknown"`, geographic_focus `"Baltic Sea"` and topics
`["seagrass_restoration"]`. -/
theorem metadata_extraction_rule_semantics (filename : String) :
    (extract_metadata_from_filename filename).doc_type
        = ((firstRuleMatch docTypeRules (lowerStr filename)).getD "unknown")
    ∧ (extract_metadata_from_filename filename).geographic_focus
        = firstMatchKV geographic_terms (lowerStr filename)
    ∧ (extract_metadata_from_filename filename).topics
        = (ocean_topics.filter (fun p => containsTerm (lowerStr filename) p.1)).map Prod.snd
    ∧ (extract_metadata_from_filename filename).topics.Nodup
    ∧ extract_metadata_from_filename "baltic_seagrass_report.pdf"
        = { doc_type := "unknown", geographic_focus := some "Baltic Sea",
            topics := ["seagrass_restoration"] } := by
  refine ⟨?_, rfl, rfl, ?_, by decide⟩
  · simp only [extract_metadata_from_filename, firstRuleMatch, docTypeRules,
      List.any_cons, List.any_nil, Bool.or_false]
    split_ifs <;> rfl
  · have hsub : ((ocean_topics.filter
        (fun p => containsTerm (lowerStr filename) p.1)).map Prod.snd).Sublist
        (ocean_topics.map Prod.snd) :=
      (List.filter_sublist _).map _
    have hnd : (ocean_topics.map Prod.snd).Nodup := by decide
    exact hnd.sublist hsub

/-- The accumulation loop keeps exactly the first `fitCount` blocks. -/
theorem prepareContextLoop_eq_take (rs : List SearchResult) (total B : Nat) :
    prepareContextLoop rs total B
      = (rs.map formatBlock).take (fitCount (rs.map blockCost) total B) := by
  induction rs generalizing total with
  | nil => rfl
  | cons r rs ih =>
      simp only [prepareContextLoop, List.map_cons, fitCount]
      split
      · rfl
      · rw [ih, Nat.add_comm 1, List.take_succ_cons]

/-- The blocks the loop accepts fit in the remaining budget. -/
theorem fitCount_within_budget (costs : List Nat) (total B : Nat) (h : total ≤ B) :
    total + ((costs.take (fitCount costs total B)).sum) ≤ B := by
  induction costs generalizing total with
  | nil => simpa using h
  | cons c cs ih =>
      by_cases hc : total + c > B
      · simp [fitCount, hc]; omega
      · have hc' : total + c ≤ B := by omega
        have h2 := ih (total + c) hc'
        simp only [fitCount, hc, ite_false, Nat.add_comm 1, List.take_succ_cons,
          List.sum_cons]
        omega

/-- The loop is maximal: it either takes every block or the very next block
would overrun the budget. -/
theorem fitCount_maximal (costs : List Nat) (total B : Nat) :
    fitCount costs total B = costs.length
    ∨ B < total + (costs.take (fitCount costs total B + 1)).sum := by
  induction costs generalizing total with
  | nil => exact Or.inl rfl
  | cons c cs ih =>
      by_cases hc : total + c > B
      · right
        simpa [fitCount, hc] using hc
      · rcases ih (total + c) with h | h
        · left
          simp only [fitCount, hc, ite_false, h, List.length_cons]
          omega
        · right
          simp only [fitCount, hc, ite_false, Nat.add_comm 1, List.take_succ_cons,
            List.sum_cons]
          omega

/-- C2: the assembled context is the sentinel on empty input, and otherwise
exactly the greedy longest prefix of formatted blocks: the kept prefix's
cumulative cost (block length `/ 4`) is at most the budget, and either every
block was kept or the first excluded block would push the total past the
budget — no partial block, no reordering. -/
theorem context_is_longest_prefix (results : List SearchResult) (B : Nat) :
    prepare_context results B
      = (if results.isEmpty then "No relevant information found."
         else String.intercalate "\n---\n"
           ((results.map formatBlock).take (fitCount (results.map blockCost) 0 B)))
    ∧ ((results.map blockCost).take (fitCount (results.map blockCost) 0 B)).sum ≤ B
    ∧ (fitCount (results.map blockCost) 0 B = results.length
       ∨ B < ((results.map blockCost).take (fitCount (results.map blockCost) 0 B + 1)).sum) := by
  refine ⟨?_, ?_, ?_⟩
  · by_cases h : results.isEmpty <;>
      simp [prepare_context, h, prepareContextLoop_eq_take]
  · have := fitCount_within_budget (results.map blockCost) 0 B (Nat.zero_le B)
    simpa using this
  · have := fitCount_maximal (results.map blockCost) 0 B
    simpa using this

/-- C10: when even the first block's estimated cost exceeds the budget, a
non-empty result list still yields the empty context string (not the
sentinel). -/
theorem first_block_over_budget_empty_context (r : SearchResult)
    (rs : List SearchResult) (B : Nat) (h : B < blockCost r) :
    prepare_context (r :: rs) B = "" := by
  have hloop : prepareContextLoop (r :: rs) 0 B = [] := by
    simp [prepareContextLoop, h]
  have hne : prepare_context (r :: rs) B
      = String.intercalate "\n---\n" (prepareContextLoop (r :: rs) 0 B) := by
    simp [prepare_context]
  rw [hne, hloop]
  rfl

/-- Witness for C10: with budget 3, the single demo block (cost 7) is
dropped and the context is empty. -/
theorem first_block_over_budget_empty_context_witness :
    prepare_context [demoResult] 3 = "" :=
  first_block_over_budget_empty_context demoResult [] 3 (by decide)

/-- C5: every similarity-search result sequence is sorted by non-increasing
similarity score, and its length never exceeds the requested limit. -/
theorem search_sorted_and_limited (dist : List ℚ → List ℚ → ℚ) (st : Store)
    (q : List ℚ) (lim : Nat) (thr : ℚ) (df gf tf : Option String) :
    List.Chain' (fun a b : SearchResult => b.similarity_score ≤ a.similarity_score)
      (search_similar_chunks dist st q lim thr df gf tf)
    ∧ (search_similar_chunks dist st q lim thr df gf tf).length ≤ lim := by
  constructor
  · have hsorted := @List.sorted_mergeSort SearchResult
      (fun a b : SearchResult => decide (b.similarity_score ≤ a.similarity_score))
      (fun a b c hab hbc => by
        simp only [decide_eq_true_eq] at *
        exact le_trans hbc hab)
      (fun a b => by
        simp only [Bool.or_eq_true, decide_eq_true_eq]
        exact le_total _ _)
      (st.chunks.flatMap (fun c =>
        (st.documents.filter (fun d => d.id == c.doc_id)).map (fun d =>
          rowToResult dist q c d)))
    have htake := hsorted.sublist (List.take_sublist lim _)
    have := htake.imp (fun h => of_decide_eq_true h)
    exact this.chain'
  · simpa [search_similar_chunks] using List.length_take_le _ _

/-- C9: the `similarity_threshold` parameter has no effect on the search
output — two calls differing only in the threshold return identical result
sequences — and in particular a result whose score lies strictly below the
supplied threshold can be returned. -/
theorem threshold_has_no_effect :
    (∀ (dist : List ℚ → List ℚ → ℚ) (st : Store) (q : List ℚ) (lim : Nat)
        (t₁ t₂ : ℚ) (df gf tf : Option String),
      search_similar_chunks dist st q lim t₁ df gf tf
        = search_similar_chunks dist st q lim t₂ df gf tf)
    ∧ ∃ r ∈ search_similar_chunks demoDist demoStore [1] 5 (9 / 10) none none none,
        r.similarity_score < 9 / 10 := by
  have hs : search_similar_chunks demoDist demoStore [1] 5 (9 / 10) none none none
      = [demoResult] := by
    simp [search_similar_chunks, demoStore, demoChunk, demoDoc, demoResult]
  refine ⟨fun _ _ _ _ _ _ _ _ _ => rfl, demoResult, ?_, ?_⟩
  · rw [hs]; exact List.mem_singleton_self _
  · show demoResult.similarity_score < 9 / 10
    norm_num [demoResult, rowToResult, demoDist]

/-- Counterexample for C1: with a `doc_type` filter of
`"sustainability_report"` supplied, the search over `demoStore` still
returns its single chunk, whose document type is `"unknown"` — the filter
predicate is violated by a returned result. -/
theorem doc_type_filter_violated :
    ∃ r ∈ search_similar_chunks demoDist demoStore [1] 5 0
        (some "sustainability_report") none none,
      r.doc_type ≠ "sustainability_report" := by
  have hs : search_similar_chunks demoDist demoStore [1] 5 0
      (some "sustainability_report") none none = [demoResult] := by
    simp [search_similar_chunks, demoStore, demoChunk, demoDoc, demoResult]
  refine ⟨demoResult, ?_, ?_⟩
  · rw [hs]; exact List.mem_singleton_self _
  · show demoResult.doc_type ≠ "sustainability_report"
    simp [demoResult, rowToResult, demoDoc]

/-- C1 as amended: the similarity search accepts the `doc_type`,
`geographic` and `topic` filter parameters but never applies them — the
returned sequence is independent of the filter values, so returned results
need not satisfy the filter predicates. -/
theorem filters_have_no_effect (dist : List ℚ → List ℚ → ℚ) (st : Store)
    (q : List ℚ) (lim : Nat) (thr : ℚ)
    (df₁ gf₁ tf₁ df₂ gf₂ tf₂ : Option String) :
    search_similar_chunks dist st q lim thr df₁ gf₁ tf₁
      = search_similar_chunks dist st q lim thr df₂ gf₂ tf₂ := rfl

/-- Counterexample for C7 as originally stated: when the question embedding
succeeds but the store is unreachable, the connectivity exception raised by
the similarity search (whose connection is acquired outside its
`try`/`except`) escapes the query operation uncaught — it is not degraded
to a well-formed response. -/
theorem query_connectivity_exception_escapes :
    queryE (fun _ _ => "") demoDist (.error .connectivity) false [1]
        "What are seagrass restoration methods?" 5 0 none none none
      = .error .connectivity := rfl

/-- C7 as amended: when embedding the question fails, the orchestrator
short-circuits — before touching the store — to a well-formed result with
an error-indicating answer, empty sources and empty context; but not every
failure mode is contained: with a non-empty embedding, a store-connectivity
failure inside the similarity search escapes the query operation as an
exception, and only when the connection succeeds does the pipeline run to a
well-formed response. -/
theorem query_error_containment :
    (∀ (gen : String → String → String) (dist : List ℚ → List ℚ → ℚ)
        (connection : Except PyErr Store) (execFails : Bool) (embedding : List ℚ)
        (question : String) (mr : Nat) (thr : ℚ) (df gf tf : Option String),
      embedding.isEmpty = true →
      queryE gen dist connection execFails embedding question mr thr df gf tf
        = .ok { answer := "Error creating query embedding", sources := [],
                context := "", metadata := none })
    ∧ (∀ (gen : String → String → String) (dist : List ℚ → List ℚ → ℚ)
        (e : PyErr) (execFails : Bool) (embedding : List ℚ) (question : String)
        (mr : Nat) (thr : ℚ) (df gf tf : Option String),
      embedding.isEmpty = false →
      queryE gen dist (.error e) execFails embedding question mr thr df gf tf
        = .error e)
    ∧ (∀ (gen : String → String → String) (dist : List ℚ → List ℚ → ℚ)
        (st : Store) (embedding : List ℚ) (question : String) (mr : Nat)
        (thr : ℚ) (df gf tf : Option String),
      queryE gen dist (.ok st) false embedding question mr thr df gf tf
        = .ok (query gen dist st embedding question mr thr df gf tf)) := by
  refine ⟨?_, ?_, ?_⟩
  · intro gen dist connection execFails embedding question mr thr df gf tf h
    simp [queryE, h]
  · intro gen dist e execFails embedding question mr thr df gf tf h
    simp [queryE, h, search_similar_chunksE]
  · intro gen dist st embedding question mr thr df gf tf
    by_cases h : embedding.isEmpty <;>
      simp [queryE, query, search_similar_chunksE, h]

/-- Witness for C7 as amended: each arm at a concrete input — a failed
embedding short-circuits, a connectivity failure escapes, and a reachable
store gives the pure pipeline's response. -/
theorem query_error_containment_witness :
    queryE (fun _ _ => "") demoDist (.ok demoStore) false []
        "q" 5 0 none none none
      = .ok { answer := "Error creating query embedding", sources := [],
              context := "", metadata := none }
    ∧ queryE (fun _ _ => "") demoDist (.error .connectivity) true [1]
        "q" 5 0 none none none
      = .error .connectivity
    ∧ queryE (fun _ _ => "") demoDist (.ok demoStore) false [1]
        "q" 5 0 none none none
      = .ok (query (fun _ _ => "") demoDist demoStore [1] "q" 5 0 none none none) :=
  ⟨query_error_containment.1 (fun _ _ => "") demoDist (.ok demoStore) false []
      "q" 5 0 none none none rfl,
   query_error_containment.2.1 (fun _ _ => "") demoDist .connectivity true [1]
      "q" 5 0 none none none rfl,
   query_error_containment.2.2 (fun _ _ => "") demoDist demoStore [1]
      "q" 5 0 none none none⟩

/-- A (filename, file_size) pair with no matching row fails the existence
pre-check. -/
theorem document_exists_false_of_docCount_zero {st : Store} {fn : String}
    {sz : Nat} (h : docCount st fn sz = 0) :
    document_exists st fn sz = false := by
  rw [docCount, List.length_eq_zero] at h
  rw [document_exists, List.any_eq_false]
  intro d hd hp
  have : d ∈ st.documents.filter (fun d => d.filename == fn && d.file_size == sz) :=
    List.mem_filter.2 ⟨hd, hp⟩
  simp [h] at this

/-- C3: ingesting a file whose (filename, file_size) pair already matches a
document is a success-reporting no-op — the store (documents and chunks) is
returned unchanged — and after a first successful ingestion into a store
with no matching row, exactly one matching document row exists, so the
second ingestion of the same file changes nothing. -/
theorem ingest_idempotent :
    (∀ (ctok : String → Nat) (splitter : String → List String)
        (embedder : List String → List (List ℚ)) (st : Store) (f : FileInput)
        (org : Option String),
      document_exists st f.filename f.file_size = true →
      ingest_document ctok splitter embedder st f org = (st, true))
    ∧ (∀ (ctok : String → Nat) (splitter : String → List String)
        (embedder : List String → List (List ℚ)) (st₀ : Store) (f : FileInput)
        (org : Option String),
      docCount st₀ f.filename f.file_size = 0 →
      (ingest_document ctok splitter embedder st₀ f org).2 = true →
      docCount (ingest_document ctok splitter embedder st₀ f org).1
        f.filename f.file_size = 1) := by
  constructor
  · intro ctok splitter embedder st f org h
    simp [ingest_document, h]
  · intro ctok splitter embedder st₀ f org h0 h1
    have hex : document_exists st₀ f.filename f.file_size = false :=
      document_exists_false_of_docCount_zero h0
    rw [docCount] at h0
    by_cases hws : allWhitespace f.text
    · simp [ingest_document, hex, hws] at h1
    · by_cases hmm : (batchedEmbeddings embedder (splitter f.text)).length
          = (splitter f.text).length
      · simp [ingest_document, hex, hws, hmm, docCount, store_chunks,
          store_document, List.filter_append, h0]
      · simp [ingest_document, hex, hws, hmm] at h1

/-- C4: when the batched embedding calls return a number of embeddings
different from the number of chunks, ingestion of that document fails, no
chunk rows are written, and the document row created in the pre-step
remains in the store. -/
theorem embedding_mismatch_orphans_document (ctok : String → Nat)
    (splitter : String → List String) (embedder : List String → List (List ℚ))
    (st : Store) (f : FileInput) (org : Option String)
    (hex : document_exists st f.filename f.file_size = false)
    (hws : allWhitespace f.text = false)
    (hmm : (batchedEmbeddings embedder (splitter f.text)).length
      ≠ (splitter f.text).length) :
    ingest_document ctok splitter embedder st f org
      = ({ documents := st.documents ++
             [{ id := st.next_doc_id, filename := f.filename,
                doc_type := (extract_metadata_from_filename f.filename).doc_type,
                organization := org, file_size := f.file_size,
                metadata := extract_metadata_from_filename f.filename }],
           chunks := st.chunks, next_doc_id := st.next_doc_id + 1,
           next_chunk_id := st.next_chunk_id }, false) := by
  simp [ingest_document, hex, hws, hmm, store_document]

/-- The chunk rows inserted by the store loop carry indices `i, i+1, …` in
loop order. -/
theorem chunkRows_map_index (ctok : String → Nat) (nid did : Nat)
    (l : List (String × (List ℚ × ChunkMeta))) (i : Nat) :
    (chunkRows ctok nid did i l).map Chunk.chunk_index = List.range' i l.length := by
  induction l generalizing i with
  | nil => rfl
  | cons x xs ih =>
      obtain ⟨c, e, m⟩ := x
      simp only [chunkRows, List.map_cons, List.length_cons, ih]
      rfl

/-- The chunk rows inserted by the store loop carry the chunk texts in
original order. -/
theorem chunkRows_map_content (ctok : String → Nat) (nid did : Nat)
    (l : List (String × (List ℚ × ChunkMeta))) (i : Nat) :
    (chunkRows ctok nid did i l).map Chunk.content = l.map Prod.fst := by
  induction l generalizing i with
  | nil => rfl
  | cons x xs ih =>
      obtain ⟨c, e, m⟩ := x
      simp only [chunkRows, List.map_cons, ih]

theorem chunkMetas_length (md : Metadata) (fn : String)
    (l : List String) (i : Nat) : (chunkMetas md fn i l).length = l.length := by
  induction l generalizing i with
  | nil => rfl
  | cons x xs ih => simp [chunkMetas, ih]

/-- C8: a successful ingestion producing N chunks appends to the chunk table
exactly N new rows whose `chunk_index` values are `0, …, N−1` in order,
carrying the chunk texts in original-text order. -/
theorem chunk_indices_contiguous (ctok : String → Nat)
    (splitter : String → List String) (embedder : List String → List (List ℚ))
    (st : Store) (f : FileInput) (org : Option String)
    (hex : document_exists st f.filename f.file_size = false)
    (hws : allWhitespace f.text = false)
    (hcnt : (batchedEmbeddings embedder (splitter f.text)).length
      = (splitter f.text).length) :
    ∃ newChunks : List Chunk,
      (ingest_document ctok splitter embedder st f org).1.chunks
          = st.chunks ++ newChunks
      ∧ newChunks.map Chunk.chunk_index = List.range (splitter f.text).length
      ∧ newChunks.map Chunk.content = splitter f.text := by
  have hmm : ¬ ((batchedEmbeddings embedder (splitter f.text)).length
      ≠ (splitter f.text).length) := not_ne_iff.mpr hcnt
  have hziplen : ((splitter f.text).zip
      ((batchedEmbeddings embedder (splitter f.text)).zip
        (chunkMetas (extract_metadata_from_filename f.filename) f.filename 0
          (splitter f.text)))).length = (splitter f.text).length := by
    simp [List.length_zip, chunkMetas_length, hcnt]
  refine ⟨chunkRows ctok st.next_chunk_id st.next_doc_id 0
      ((splitter f.text).zip
        ((batchedEmbeddings embedder (splitter f.text)).zip
          (chunkMetas (extract_metadata_from_filename f.filename) f.filename 0
            (splitter f.text)))), ?_, ?_, ?_⟩
  · simp [ingest_document, hex, hws, hmm, store_chunks, store_document]
  · rw [chunkRows_map_index, hziplen]
    exact (List.range_eq_range' _).symm
  · rw [chunkRows_map_content]
    refine List.map_fst_zip _ _ ?_
    simp [List.length_zip, chunkMetas_length, hcnt]

/-- The batched embedding loop on the single chunk `"hello"` with the
well-behaved provider: one batch, one embedding. -/
theorem batchedEmbeddings_embedderW_hello :
    batchedEmbeddings embedderW ["hello"] = [[1]] := by
  rw [batchedEmbeddings, show (["hello"] : List String).take 100 = ["hello"] from rfl,
    show (["hello"] : List String).drop 100 = [] from rfl, batchedEmbeddings]
  rfl

/-- The batched embedding loop on the single chunk `"hello"` with the
failing provider: one batch, zero embeddings. -/
theorem batchedEmbeddings_embedderBad_hello :
    batchedEmbeddings embedderBad ["hello"] = [] := by
  rw [batchedEmbeddings, show (["hello"] : List String).drop 100 = [] from rfl,
    batchedEmbeddings]
  rfl

/-- Witness for C3: re-ingesting `a.txt` into the store that already holds
it is a no-op success, and one fresh successful ingestion leaves exactly one
matching document row. -/
theorem ingest_idempotent_witness :
    ingest_document ctokW splitterW embedderW demoStore fileW none = (demoStore, true)
    ∧ docCount (ingest_document ctokW splitterW embedderW emptyStore fileW none).1
        "a.txt" 5 = 1 := by
  constructor
  · exact ingest_idempotent.1 ctokW splitterW embedderW demoStore fileW none (by decide)
  · refine ingest_idempotent.2 ctokW splitterW embedderW emptyStore fileW none
      (by decide) ?_
    have hex : document_exists emptyStore fileW.filename fileW.file_size = false := by
      decide
    have hws : allWhitespace fileW.text = false := by decide
    have hcnt : (batchedEmbeddings embedderW (splitterW fileW.text)).length
        = (splitterW fileW.text).length := by
      rw [show splitterW fileW.text = ["hello"] from rfl,
        batchedEmbeddings_embedderW_hello]
      rfl
    simp [ingest_document, hex, hws, hcnt]

/-- Witness for C4: the failing provider makes the embedding count (0)
differ from the chunk count (1); ingestion reports failure, writes no
chunks, and leaves the document row behind. -/
theorem embedding_mismatch_orphans_document_witness :
    ingest_document ctokW splitterW embedderBad emptyStore fileW none
      = ({ documents := emptyStore.documents ++
             [{ id := emptyStore.next_doc_id, filename := fileW.filename,
                doc_type := (extract_metadata_from_filename fileW.filename).doc_type,
                organization := none, file_size := fileW.file_size,
                metadata := extract_metadata_from_filename fileW.filename }],
           chunks := emptyStore.chunks, next_doc_id := emptyStore.next_doc_id + 1,
           next_chunk_id := emptyStore.next_chunk_id }, false) := by
  refine embedding_mismatch_orphans_document ctokW splitterW embedderBad emptyStore
    fileW none (by decide) (by decide) ?_
  rw [show splitterW fileW.text = ["hello"] from rfl, batchedEmbeddings_embedderBad_hello]
  decide

/-- Witness for C8: ingesting the one-chunk file appends chunk rows with
indices exactly `range 1 = [0]`, in text order. -/
theorem chunk_indices_contiguous_witness :
    ∃ newChunks : List Chunk,
      (ingest_document ctokW splitterW embedderW emptyStore fileW none).1.chunks
          = emptyStore.chunks ++ newChunks
      ∧ newChunks.map Chunk.chunk_index = List.range (splitterW fileW.text).length
      ∧ newChunks.map Chunk.content = splitterW fileW.text := by
  refine chunk_indices_contiguous ctokW splitterW embedderW emptyStore fileW none
    (by decide) (by decide) ?_
  rw [show splitterW fileW.text = ["hello"] from rfl, batchedEmbeddings_embedderW_hello]
  rfl

end OceanAI
